import Mathlib

/-!
A shallow embedding of the `houla-sdk` TypeScript client
(`src/config.ts`, `src/client.ts`) together with proofs about the
requests it constructs.

Conventions of the embedding:
* JavaScript strings are Lean `String`s, JavaScript numbers that the
  client manipulates (page, limit, timeout, QR-code width/margin,
  HTTP status) are Lean `Int`s (the claims under study only involve
  integral values; `NaN`/fractional values are outside the model).
* A JSON value is the inductive `Json` below; `Json.stringify`
  mirrors `JSON.stringify` (object fields in insertion order,
  standard string escaping).  An `undefined` object field is simply
  absent from the field list, exactly as `JSON.stringify` drops it.
* `URLSearchParams` is a list of key/value pairs in insertion order;
  `paramsToString` mirrors `URLSearchParams.toString()` including
  `application/x-www-form-urlencoded` percent-encoding.
* A call to `fetch` is modelled by the `FetchRequest` record it
  receives: final URL, method, header list (later entries override
  earlier ones, as in a JS object literal built by spreading),
  optional body, and the timeout machinery that `request` arms
  (`hasAbortSignal` = an `AbortController` signal is attached,
  `timerMs = some t` = `setTimeout(() => controller.abort(), t)` is
  armed on that controller).
-/

namespace HoulaSDK

/-! ### JSON values and `JSON.stringify` -/

/-- A JSON value.  Object fields are kept in insertion order, which is the
    order `JSON.stringify` serializes them in. -/
inductive Json where
  | null : Json
  | bool (b : Bool) : Json
  | num (n : Int) : Json
  | str (s : String) : Json
  | arr (elems : List Json) : Json
  | obj (fields : List (String × Json)) : Json

/-- The body of a mutating call: the caller-provided DTO, viewed as the
    JSON object `JSON.stringify` receives (fields present and defined). -/
abbrev Dto := List (String × Json)

/-- Uppercase hexadecimal digit, for `%XX` escapes. -/
def hexUpper (n : Nat) : Char :=
  if n < 10 then Char.ofNat (48 + n) else Char.ofNat (55 + n)

/-- Escaping of a single character inside a JSON string literal, as
    performed by `JSON.stringify`. -/
def jsonEscapeChar (c : Char) : String :=
  if c = '"' then "\\\""
  else if c = '\\' then "\\\\"
  else if c = '\n' then "\\n"
  else if c = '\r' then "\\r"
  else if c = '\t' then "\\t"
  else if c = '\x08' then "\\b"
  else if c = '\x0c' then "\\f"
  else if c.toNat < 32 then
    "\\u00" ++ String.singleton (hexUpper (c.toNat / 16)) ++ String.singleton (hexUpper (c.toNat % 16))
  else String.singleton c

/-- A JSON string literal: quotes around the escaped characters. -/
def jsonQuote (s : String) : String :=
  "\"" ++ String.join (s.data.map jsonEscapeChar) ++ "\""

mutual

/-- `JSON.stringify` on a JSON value. -/
def Json.stringify : Json → String
  | .null => "null"
  | .bool true => "true"
  | .bool false => "false"
  | .num n => toString n
  | .str s => jsonQuote s
  | .arr elems => "[" ++ Json.stringifyElems elems ++ "]"
  | .obj fields => "\x7b" ++ Json.stringifyFields fields ++ "\x7d"

/-- Comma-separated serialization of array elements. -/
def Json.stringifyElems : List Json → String
  | [] => ""
  | [x] => Json.stringify x
  | x :: xs => Json.stringify x ++ "," ++ Json.stringifyElems xs

/-- Comma-separated serialization of object fields, in insertion order. -/
def Json.stringifyFields : List (String × Json) → String
  | [] => ""
  | [(k, v)] => jsonQuote k ++ ":" ++ Json.stringify v
  | (k, v) :: fs => jsonQuote k ++ ":" ++ Json.stringify v ++ "," ++ Json.stringifyFields fs

end

/-! ### `URLSearchParams` -/

/-- UTF-8 byte sequence of a code point (for percent-encoding). -/
def utf8Bytes (n : Nat) : List Nat :=
  if n < 0x80 then [n]
  else if n < 0x800 then [0xC0 + n / 64, 0x80 + n % 64]
  else if n < 0x10000 then [0xE0 + n / 4096, 0x80 + (n / 64) % 64, 0x80 + n % 64]
  else [0xF0 + n / 262144, 0x80 + (n / 4096) % 64, 0x80 + (n / 64) % 64, 0x80 + n % 64]

/-- `%XX` escape of one byte. -/
def percentByte (b : Nat) : String :=
  "%" ++ String.singleton (hexUpper (b / 16)) ++ String.singleton (hexUpper (b % 16))

/-- `application/x-www-form-urlencoded` encoding of one character, as used
    by `URLSearchParams.toString()`: ASCII alphanumerics and `*-._` are
    kept, a space becomes `+`, everything else is percent-encoded. -/
def formEncodeChar (c : Char) : String :=
  if c.isAlphanum then String.singleton c
  else if c = '*' ∨ c = '-' ∨ c = '.' ∨ c = '_' then String.singleton c
  else if c = ' ' then "+"
  else String.join ((utf8Bytes c.toNat).map percentByte)

/-- `application/x-www-form-urlencoded` encoding of a string. -/
def formEncode (s : String) : String :=
  String.join (s.data.map formEncodeChar)

/-- `URLSearchParams.toString()`: `k₁=v₁&k₂=v₂&…` with form encoding. -/
def paramsToString (ps : List (String × String)) : String :=
  String.intercalate "&" (ps.map (fun p => formEncode p.1 ++ "=" ++ formEncode p.2))

/-- `URLSearchParams.set`: replace the value of an existing key, otherwise
    append the pair at the end. -/
def searchParamsSet (ps : List (String × String)) (k v : String) : List (String × String) :=
  if ps.any (fun p => p.1 = k) then
    ps.map (fun p => if p.1 = k then (k, v) else p)
  else
    ps ++ [(k, v)]

/-- The value of a query parameter (first occurrence, cf. `URLSearchParams.get`). -/
def lookupParam : List (String × String) → String → Option String
  | [], _ => none
  | p :: ps, k => if p.1 = k then some p.2 else lookupParam ps k

@[simp] theorem lookupParam_nil (k : String) : lookupParam [] k = none := rfl

@[simp] theorem lookupParam_cons (p : String × String) (ps : List (String × String)) (k : String) :
    lookupParam (p :: ps) k = if p.1 = k then some p.2 else lookupParam ps k := rfl

theorem lookupParam_append (a b : List (String × String)) (k : String) :
    lookupParam (a ++ b) k =
      match lookupParam a k with
      | some v => some v
      | none => lookupParam b k := by
  induction a with
  | nil => simp
  | cons p ps ih =>
    by_cases h : p.1 = k <;> simp [h, ih]

/-- The effective value of a header in a JS header object literal: later
    entries override earlier ones (object spread semantics). -/
def headerValue (hs : List (String × String)) (k : String) : Option String :=
  lookupParam hs.reverse k

/-- `String.prototype.startsWith`. -/
def strStartsWith (s pre : String) : Bool :=
  pre.data.isPrefixOf s.data

/-! ### `src/config.ts` -/

/-- The `HoulaConfig` interface: optional fields are `Option`s
    (`none` = the property is absent / `undefined`). -/
structure HoulaConfig where
  apiKey : String
  apiUrl : Option String := none
  timeout : Option Int := none
  workspaceId : Option String := none

/-- `DEFAULT_CONFIG.apiUrl`. -/
def DEFAULT_CONFIG_apiUrl : String := "https://hou.la"

/-- `DEFAULT_CONFIG.timeout`. -/
def DEFAULT_CONFIG_timeout : Int := 30000

/-- The return type of `createConfig`:
    `Required<Omit<HoulaConfig, "workspaceId">> & \x7b workspaceId?: string \x7d`. -/
structure ResolvedConfig where
  apiKey : String
  apiUrl : String
  timeout : Int
  workspaceId : Option String

/-- `config.apiUrl || DEFAULT_CONFIG.apiUrl!` — JS truthiness on an optional
    string: `undefined` and `""` both fall back to the default. -/
def strOrDefault (v : Option String) (d : String) : String :=
  match v with
  | none => d
  | some s => if s = "" then d else s

/-- `config.timeout || DEFAULT_CONFIG.timeout!` — JS truthiness on an optional
    number: `undefined` and `0` both fall back to the default. -/
def numOrDefault (v : Option Int) (d : Int) : Int :=
  match v with
  | none => d
  | some n => if n = 0 then d else n

/-- `createConfig` (`src/config.ts`, lines 14–29): rejects an empty API key
    (`!config.apiKey`), then a key that does not start with `houla_sk_`;
    otherwise fills the defaults and returns the resolved record.
    A thrown `Error` is modelled as `Except.error` carrying its message. -/
def createConfig (config : HoulaConfig) : Except String ResolvedConfig :=
  if config.apiKey = "" then
    .error "Hou.la SDK: apiKey is required. Get one at https://hou.la/admin/settings/api-keys"
  else if ¬ strStartsWith config.apiKey "houla_sk_" then
    .error "Hou.la SDK: Invalid API key format. API keys must start with houla_sk_"
  else
    .ok { apiKey := config.apiKey
          apiUrl := strOrDefault config.apiUrl DEFAULT_CONFIG_apiUrl
          timeout := numOrDefault config.timeout DEFAULT_CONFIG_timeout
          workspaceId := config.workspaceId }

/-! ### `src/client.ts`: the requests handed to `fetch` -/

/-- An HTTP method (the `method` option of `fetch`; `GET` is the default). -/
inductive HttpMethod where
  | GET | POST | PATCH | PUT | DELETE
deriving Repr, DecidableEq

/-- A request body: either a JSON string (`body: JSON.stringify(...)`) or a
    `FormData` with a single appended file (only `uploadOgImage` uses it). -/
inductive RequestBody where
  | json (s : String)
  | formData (filename : String)
deriving Repr, DecidableEq

/-- Everything `HoulaClient` passes to `fetch`, plus the timeout machinery it
    arms around the call: `hasAbortSignal` records that the request carries an
    `AbortController`'s signal, and `timerMs = some t` that
    `setTimeout(() => controller.abort(), t)` was armed on that controller. -/
structure FetchRequest where
  url : String
  method : HttpMethod
  headers : List (String × String)
  body : Option RequestBody
  hasAbortSignal : Bool
  timerMs : Option Int
deriving Repr, DecidableEq

/-- `QRCodeFormat.PNG`. -/
def QRCodeFormat.PNG : String := "png"

/-- `QRCodeFormat.SVG`. -/
def QRCodeFormat.SVG : String := "svg"

/-- The `QRCodeOptions` interface (the error-correction level and format
    enums are their string values). -/
structure QRCodeOptions where
  width : Option Int := none
  margin : Option Int := none
  darkColor : Option String := none
  lightColor : Option String := none
  errorCorrectionLevel : Option String := none
  format : Option String := none

namespace HoulaClient

/-- The URL computed by `request`:
    `endpoint.startsWith("http") ? endpoint : apiUrl + endpoint`. -/
def requestUrl (cfg : ResolvedConfig) (endpoint : String) : String :=
  if strStartsWith endpoint "http" then endpoint else cfg.apiUrl ++ endpoint

/-- The private `request` helper (`src/client.ts`, lines 49–75): it resolves
    the URL, arms an abort timer of `config.timeout` ms, and calls `fetch`
    with the standard headers (`Content-Type`, `X-API-Key`) merged with — and
    overridable by — the per-call `options.headers`. -/
def request (cfg : ResolvedConfig) (endpoint : String) (method : HttpMethod)
    (body : Option RequestBody) (extraHeaders : List (String × String)) : FetchRequest :=
  { url := requestUrl cfg endpoint
    method := method
    headers := [("Content-Type", "application/json"), ("X-API-Key", cfg.apiKey)] ++ extraHeaders
    body := body
    hasAbortSignal := true
    timerMs := some cfg.timeout }

/-- The private `baseUrl` getter: `apiUrl + "/api/link"`. -/
def baseUrl (cfg : ResolvedConfig) : String :=
  cfg.apiUrl ++ "/api/link"

/-- The `URLSearchParams` built by `getLinks`:
    `\x7b page: page.toString(), limit: Math.min(limit, 100).toString() \x7d`. -/
def getLinksQuery (page limit : Int) : List (String × String) :=
  [("page", toString page), ("limit", toString (min limit 100))]

/-- `getLinks(page = 1, limit = 20)`. -/
def getLinks (cfg : ResolvedConfig) (page limit : Int) : FetchRequest :=
  request cfg ("/api/link?" ++ paramsToString (getLinksQuery page limit)) .GET none []

/-- `getLinkById(id)`. -/
def getLinkById (cfg : ResolvedConfig) (id : String) : FetchRequest :=
  request cfg ("/api/link/" ++ id) .GET none []

/-- `getLinkByKey(key)`. -/
def getLinkByKey (cfg : ResolvedConfig) (key : String) : FetchRequest :=
  request cfg ("/api/link/" ++ key) .GET none []

/-- `checkAvailability(key)` (`src/client.ts`, lines 93–96): a bare
    `fetch(baseUrl + "/" + key + "/availability")` — no options object at
    all, hence no headers, no body, no abort signal and no timer. -/
def checkAvailability (cfg : ResolvedConfig) (key : String) : FetchRequest :=
  { url := baseUrl cfg ++ "/" ++ key ++ "/availability"
    method := .GET
    headers := []
    body := none
    hasAbortSignal := false
    timerMs := none }

/-- `createLink(data, source = LinkCreatedType.API)`: POST with the
    stringified DTO and an extra `X-Source` header. -/
def createLink (cfg : ResolvedConfig) (data : Dto) (source : String) : FetchRequest :=
  request cfg "/api/link" .POST (some (.json (Json.stringify (.obj data)))) [("X-Source", source)]

/-- `updateLink(id, data)`. -/
def updateLink (cfg : ResolvedConfig) (id : String) (data : Dto) : FetchRequest :=
  request cfg ("/api/link/" ++ id) .PATCH (some (.json (Json.stringify (.obj data)))) []

/-- `deleteLink(id)`. -/
def deleteLink (cfg : ResolvedConfig) (id : String) : FetchRequest :=
  request cfg ("/api/link/" ++ id) .DELETE none []

/-- `uploadOgImage(linkId, file, filename = "og-image")` (`src/client.ts`,
    lines 128–155): its own `fetch` with an abort timer, a `FormData` body,
    and only the `X-API-Key` header (no `Content-Type`, so that the browser
    can set the multipart boundary). -/
def uploadOgImage (cfg : ResolvedConfig) (linkId : String) (filename : String) : FetchRequest :=
  { url := cfg.apiUrl ++ "/api/manager/link/" ++ linkId ++ "/og-image"
    method := .POST
    headers := [("X-API-Key", cfg.apiKey)]
    body := some (.formData filename)
    hasAbortSignal := true
    timerMs := some cfg.timeout }

/-- `deleteOgImage(linkId)`. -/
def deleteOgImage (cfg : ResolvedConfig) (linkId : String) : FetchRequest :=
  request cfg ("/api/manager/link/" ++ linkId ++ "/og-image") .DELETE none []

/-- The `URLSearchParams` built by `getQRCode` (`src/client.ts`, lines
    168–174): `width`, `darkColor`, `lightColor`, `errorCorrectionLevel` and
    `format` are added only when truthy (a zero width or an empty string is
    skipped), while `margin` is added whenever it is not `undefined`. -/
def qrcodeQuery (o : QRCodeOptions) : List (String × String) :=
  let ps : List (String × String) := []
  let ps := match o.width with
    | some w => if w = 0 then ps else searchParamsSet ps "width" (toString w)
    | none => ps
  let ps := match o.margin with
    | some m => searchParamsSet ps "margin" (toString m)
    | none => ps
  let ps := match o.darkColor with
    | some s => if s = "" then ps else searchParamsSet ps "darkColor" s
    | none => ps
  let ps := match o.lightColor with
    | some s => if s = "" then ps else searchParamsSet ps "lightColor" s
    | none => ps
  let ps := match o.errorCorrectionLevel with
    | some s => if s = "" then ps else searchParamsSet ps "errorCorrectionLevel" s
    | none => ps
  let ps := match o.format with
    | some s => if s = "" then ps else searchParamsSet ps "format" s
    | none => ps
  ps

/-- `getQRCode(id, options?)`: the query string is appended only when
    non-empty. -/
def getQRCode (cfg : ResolvedConfig) (id : String) (o : QRCodeOptions) : FetchRequest :=
  let queryString := paramsToString (qrcodeQuery o)
  request cfg ("/api/link/" ++ id ++ "/qrcode" ++ (if queryString = "" then "" else "?" ++ queryString))
    .GET none []

/-- `\x7b ...options, format: QRCodeFormat.PNG \x7d`: the spread puts the
    caller's fields first, so the trailing `format` always wins. -/
def pngOptions (o : QRCodeOptions) : QRCodeOptions :=
  { o with format := some QRCodeFormat.PNG }

/-- `\x7b ...options, format: QRCodeFormat.SVG \x7d`. -/
def svgOptions (o : QRCodeOptions) : QRCodeOptions :=
  { o with format := some QRCodeFormat.SVG }

/-- `getQRCodePng(id, options?)` delegates to `getQRCode` with `format`
    forced to PNG. -/
def getQRCodePng (cfg : ResolvedConfig) (id : String) (o : QRCodeOptions) : FetchRequest :=
  getQRCode cfg id (pngOptions o)

/-- `getQRCodeSvg(id, options?)` delegates to `getQRCode` with `format`
    forced to SVG. -/
def getQRCodeSvg (cfg : ResolvedConfig) (id : String) (o : QRCodeOptions) : FetchRequest :=
  getQRCode cfg id (svgOptions o)

/-- `getLinkRules(linkId)`. -/
def getLinkRules (cfg : ResolvedConfig) (linkId : String) : FetchRequest :=
  request cfg ("/api/link/" ++ linkId ++ "/rules") .GET none []

/-- `createLinkRule(linkId, data)`. -/
def createLinkRule (cfg : ResolvedConfig) (linkId : String) (data : Dto) : FetchRequest :=
  request cfg ("/api/link/" ++ linkId ++ "/rules") .POST (some (.json (Json.stringify (.obj data)))) []

/-- `updateLinkRule(linkId, ruleId, data)`. -/
def updateLinkRule (cfg : ResolvedConfig) (linkId ruleId : String) (data : Dto) : FetchRequest :=
  request cfg ("/api/link/" ++ linkId ++ "/rules/" ++ ruleId) .PATCH
    (some (.json (Json.stringify (.obj data)))) []

/-- `deleteLinkRule(linkId, ruleId)`. -/
def deleteLinkRule (cfg : ResolvedConfig) (linkId ruleId : String) : FetchRequest :=
  request cfg ("/api/link/" ++ linkId ++ "/rules/" ++ ruleId) .DELETE none []

/-- `reorderLinkRules(linkId, ruleIds)`: the body is
    `JSON.stringify(\x7b ruleIds \x7d)` — a one-field object wrapping the
    caller's array. -/
def reorderLinkRules (cfg : ResolvedConfig) (linkId : String) (ruleIds : List String) : FetchRequest :=
  request cfg ("/api/link/" ++ linkId ++ "/rules/reorder") .PUT
    (some (.json (Json.stringify (.obj [("ruleIds", .arr (ruleIds.map .str))])))) []

/-- `getWebhooks()`. -/
def getWebhooks (cfg : ResolvedConfig) : FetchRequest :=
  request cfg "/api/manager/webhook" .GET none []

/-- `getWebhookById(id)`. -/
def getWebhookById (cfg : ResolvedConfig) (id : String) : FetchRequest :=
  request cfg ("/api/manager/webhook/" ++ id) .GET none []

/-- `createWebhook(data)`. -/
def createWebhook (cfg : ResolvedConfig) (data : Dto) : FetchRequest :=
  request cfg "/api/manager/webhook" .POST (some (.json (Json.stringify (.obj data)))) []

/-- `updateWebhook(id, data)`. -/
def updateWebhook (cfg : ResolvedConfig) (id : String) (data : Dto) : FetchRequest :=
  request cfg ("/api/manager/webhook/" ++ id) .PATCH (some (.json (Json.stringify (.obj data)))) []

/-- `deleteWebhook(id)`. -/
def deleteWebhook (cfg : ResolvedConfig) (id : String) : FetchRequest :=
  request cfg ("/api/manager/webhook/" ++ id) .DELETE none []

/-- `enableWebhook(id)`. -/
def enableWebhook (cfg : ResolvedConfig) (id : String) : FetchRequest :=
  request cfg ("/api/manager/webhook/" ++ id ++ "/enable") .POST none []

/-- `disableWebhook(id)`. -/
def disableWebhook (cfg : ResolvedConfig) (id : String) : FetchRequest :=
  request cfg ("/api/manager/webhook/" ++ id ++ "/disable") .POST none []

/-- `testWebhook(id)`. -/
def testWebhook (cfg : ResolvedConfig) (id : String) : FetchRequest :=
  request cfg ("/api/manager/webhook/" ++ id ++ "/test") .POST none []

/-- `regenerateWebhookSecret(id)`. -/
def regenerateWebhookSecret (cfg : ResolvedConfig) (id : String) : FetchRequest :=
  request cfg ("/api/manager/webhook/" ++ id ++ "/regenerate-secret") .POST none []

/-- `getWebhookSecret(id)`. -/
def getWebhookSecret (cfg : ResolvedConfig) (id : String) : FetchRequest :=
  request cfg ("/api/manager/webhook/" ++ id ++ "/secret") .GET none []

/-- The `URLSearchParams` built by `getWebhookLogs`: the same page/limit
    pair as `getLinks`, plus `success` when it is not `undefined`. -/
def getWebhookLogsQuery (page limit : Int) (success : Option Bool) : List (String × String) :=
  let ps := [("page", toString page), ("limit", toString (min limit 100))]
  match success with
  | some b => searchParamsSet ps "success" (if b then "true" else "false")
  | none => ps

/-- `getWebhookLogs(id, page = 1, limit = 20, success?)`. -/
def getWebhookLogs (cfg : ResolvedConfig) (id : String) (page limit : Int)
    (success : Option Bool) : FetchRequest :=
  request cfg ("/api/manager/webhook/" ++ id ++ "/logs?"
    ++ paramsToString (getWebhookLogsQuery page limit success)) .GET none []

/-- `getWebhookStats()`. -/
def getWebhookStats (cfg : ResolvedConfig) : FetchRequest :=
  request cfg "/api/manager/webhook/stats" .GET none []

/-- `listPixelPresets()`. -/
def listPixelPresets (cfg : ResolvedConfig) : FetchRequest :=
  request cfg "/api/manager/pixel-preset" .GET none []

/-- `getPixelPreset(id)`. -/
def getPixelPreset (cfg : ResolvedConfig) (id : String) : FetchRequest :=
  request cfg ("/api/manager/pixel-preset/" ++ id) .GET none []

/-- `createPixelPreset(data)`. -/
def createPixelPreset (cfg : ResolvedConfig) (data : Dto) : FetchRequest :=
  request cfg "/api/manager/pixel-preset" .POST (some (.json (Json.stringify (.obj data)))) []

/-- `updatePixelPreset(id, data)`. -/
def updatePixelPreset (cfg : ResolvedConfig) (id : String) (data : Dto) : FetchRequest :=
  request cfg ("/api/manager/pixel-preset/" ++ id) .PATCH
    (some (.json (Json.stringify (.obj data)))) []

/-- `deletePixelPreset(id)`. -/
def deletePixelPreset (cfg : ResolvedConfig) (id : String) : FetchRequest :=
  request cfg ("/api/manager/pixel-preset/" ++ id) .DELETE none []

/-- `listDomains()`. -/
def listDomains (cfg : ResolvedConfig) : FetchRequest :=
  request cfg "/api/domains" .GET none []

/-- `getDomain(id)`. -/
def getDomain (cfg : ResolvedConfig) (id : String) : FetchRequest :=
  request cfg ("/api/domains/" ++ id) .GET none []

/-- `createDomain(data)`. -/
def createDomain (cfg : ResolvedConfig) (data : Dto) : FetchRequest :=
  request cfg "/api/domains" .POST (some (.json (Json.stringify (.obj data)))) []

/-- `verifyDomain(id)`. -/
def verifyDomain (cfg : ResolvedConfig) (id : String) : FetchRequest :=
  request cfg ("/api/domains/" ++ id ++ "/verify") .POST none []

/-- `changeDomainVerificationMethod(id, method)`: the body is
    `JSON.stringify(\x7b method \x7d)`. -/
def changeDomainVerificationMethod (cfg : ResolvedConfig) (id m : String) : FetchRequest :=
  request cfg ("/api/domains/" ++ id ++ "/verification-method") .PATCH
    (some (.json (Json.stringify (.obj [("method", .str m)])))) []

/-- `deleteDomain(id)`. -/
def deleteDomain (cfg : ResolvedConfig) (id : String) : FetchRequest :=
  request cfg ("/api/domains/" ++ id) .DELETE none []

/-- `listBioPages()`. -/
def listBioPages (cfg : ResolvedConfig) : FetchRequest :=
  request cfg "/api/manager/profile/bio-pages" .GET none []

/-- `getBioPage(id)`. -/
def getBioPage (cfg : ResolvedConfig) (id : String) : FetchRequest :=
  request cfg ("/api/manager/profile/bio-pages/" ++ id) .GET none []

/-- `createBioPage(data)`. -/
def createBioPage (cfg : ResolvedConfig) (data : Dto) : FetchRequest :=
  request cfg "/api/manager/profile/bio-pages" .POST (some (.json (Json.stringify (.obj data)))) []

/-- `updateBioPage(id, data)`. -/
def updateBioPage (cfg : ResolvedConfig) (id : String) (data : Dto) : FetchRequest :=
  request cfg ("/api/manager/profile/bio-pages/" ++ id) .PATCH
    (some (.json (Json.stringify (.obj data)))) []

/-- `deleteBioPage(id)`. -/
def deleteBioPage (cfg : ResolvedConfig) (id : String) : FetchRequest :=
  request cfg ("/api/manager/profile/bio-pages/" ++ id) .DELETE none []

/-- `setBioPageAsDefault(id)`. -/
def setBioPageAsDefault (cfg : ResolvedConfig) (id : String) : FetchRequest :=
  request cfg ("/api/manager/profile/bio-pages/" ++ id ++ "/set-default") .PATCH none []

/-- `attachCustomDomainToBioPage(id, data)`. -/
def attachCustomDomainToBioPage (cfg : ResolvedConfig) (id : String) (data : Dto) : FetchRequest :=
  request cfg ("/api/manager/profile/bio-pages/" ++ id ++ "/custom-domain") .PATCH
    (some (.json (Json.stringify (.obj data)))) []

end HoulaClient

/-- One invocation of a public `HoulaClient` method, with its arguments
    (one constructor per method of `src/client.ts`). -/
inductive ApiCall where
  | getLinks (page limit : Int)
  | getLinkById (id : String)
  | getLinkByKey (key : String)
  | checkAvailability (key : String)
  | createLink (data : Dto) (source : String)
  | updateLink (id : String) (data : Dto)
  | deleteLink (id : String)
  | uploadOgImage (linkId : String) (filename : String)
  | deleteOgImage (linkId : String)
  | getQRCode (id : String) (options : QRCodeOptions)
  | getQRCodePng (id : String) (options : QRCodeOptions)
  | getQRCodeSvg (id : String) (options : QRCodeOptions)
  | getLinkRules (linkId : String)
  | createLinkRule (linkId : String) (data : Dto)
  | updateLinkRule (linkId ruleId : String) (data : Dto)
  | deleteLinkRule (linkId ruleId : String)
  | reorderLinkRules (linkId : String) (ruleIds : List String)
  | getWebhooks
  | getWebhookById (id : String)
  | createWebhook (data : Dto)
  | updateWebhook (id : String) (data : Dto)
  | deleteWebhook (id : String)
  | enableWebhook (id : String)
  | disableWebhook (id : String)
  | testWebhook (id : String)
  | regenerateWebhookSecret (id : String)
  | getWebhookSecret (id : String)
  | getWebhookLogs (id : String) (page limit : Int) (success : Option Bool)
  | getWebhookStats
  | listPixelPresets
  | getPixelPreset (id : String)
  | createPixelPreset (data : Dto)
  | updatePixelPreset (id : String) (data : Dto)
  | deletePixelPreset (id : String)
  | listDomains
  | getDomain (id : String)
  | createDomain (data : Dto)
  | verifyDomain (id : String)
  | changeDomainVerificationMethod (id : String) (method : String)
  | deleteDomain (id : String)
  | listBioPages
  | getBioPage (id : String)
  | createBioPage (data : Dto)
  | updateBioPage (id : String) (data : Dto)
  | deleteBioPage (id : String)
  | setBioPageAsDefault (id : String)
  | attachCustomDomainToBioPage (id : String) (data : Dto)

/-- The request a given method invocation hands to `fetch`. -/
def HoulaClient.run (cfg : ResolvedConfig) : ApiCall → FetchRequest
  | .getLinks page limit => HoulaClient.getLinks cfg page limit
  | .getLinkById id => HoulaClient.getLinkById cfg id
  | .getLinkByKey key => HoulaClient.getLinkByKey cfg key
  | .checkAvailability key => HoulaClient.checkAvailability cfg key
  | .createLink data source => HoulaClient.createLink cfg data source
  | .updateLink id data => HoulaClient.updateLink cfg id data
  | .deleteLink id => HoulaClient.deleteLink cfg id
  | .uploadOgImage linkId filename => HoulaClient.uploadOgImage cfg linkId filename
  | .deleteOgImage linkId => HoulaClient.deleteOgImage cfg linkId
  | .getQRCode id options => HoulaClient.getQRCode cfg id options
  | .getQRCodePng id options => HoulaClient.getQRCodePng cfg id options
  | .getQRCodeSvg id options => HoulaClient.getQRCodeSvg cfg id options
  | .getLinkRules linkId => HoulaClient.getLinkRules cfg linkId
  | .createLinkRule linkId data => HoulaClient.createLinkRule cfg linkId data
  | .updateLinkRule linkId ruleId data => HoulaClient.updateLinkRule cfg linkId ruleId data
  | .deleteLinkRule linkId ruleId => HoulaClient.deleteLinkRule cfg linkId ruleId
  | .reorderLinkRules linkId ruleIds => HoulaClient.reorderLinkRules cfg linkId ruleIds
  | .getWebhooks => HoulaClient.getWebhooks cfg
  | .getWebhookById id => HoulaClient.getWebhookById cfg id
  | .createWebhook data => HoulaClient.createWebhook cfg data
  | .updateWebhook id data => HoulaClient.updateWebhook cfg id data
  | .deleteWebhook id => HoulaClient.deleteWebhook cfg id
  | .enableWebhook id => HoulaClient.enableWebhook cfg id
  | .disableWebhook id => HoulaClient.disableWebhook cfg id
  | .testWebhook id => HoulaClient.testWebhook cfg id
  | .regenerateWebhookSecret id => HoulaClient.regenerateWebhookSecret cfg id
  | .getWebhookSecret id => HoulaClient.getWebhookSecret cfg id
  | .getWebhookLogs id page limit success => HoulaClient.getWebhookLogs cfg id page limit success
  | .getWebhookStats => HoulaClient.getWebhookStats cfg
  | .listPixelPresets => HoulaClient.listPixelPresets cfg
  | .getPixelPreset id => HoulaClient.getPixelPreset cfg id
  | .createPixelPreset data => HoulaClient.createPixelPreset cfg data
  | .updatePixelPreset id data => HoulaClient.updatePixelPreset cfg id data
  | .deletePixelPreset id => HoulaClient.deletePixelPreset cfg id
  | .listDomains => HoulaClient.listDomains cfg
  | .getDomain id => HoulaClient.getDomain cfg id
  | .createDomain data => HoulaClient.createDomain cfg data
  | .verifyDomain id => HoulaClient.verifyDomain cfg id
  | .changeDomainVerificationMethod id m => HoulaClient.changeDomainVerificationMethod cfg id m
  | .deleteDomain id => HoulaClient.deleteDomain cfg id
  | .listBioPages => HoulaClient.listBioPages cfg
  | .getBioPage id => HoulaClient.getBioPage cfg id
  | .createBioPage data => HoulaClient.createBioPage cfg data
  | .updateBioPage id data => HoulaClient.updateBioPage cfg id data
  | .deleteBioPage id => HoulaClient.deleteBioPage cfg id
  | .setBioPageAsDefault id => HoulaClient.setBioPageAsDefault cfg id
  | .attachCustomDomainToBioPage id data => HoulaClient.attachCustomDomainToBioPage cfg id data

/-- `checkAvailability` is the one method that bypasses the `request`
    helper with a bare `fetch(url)`. -/
def ApiCall.usesRawFetch : ApiCall → Bool
  | .checkAvailability _ => true
  | _ => false

/-- Methods routed through the private `request` helper: everything except
    `checkAvailability` (bare `fetch`) and `uploadOgImage` (its own `fetch`
    with `FormData`). -/
def ApiCall.viaRequestHelper : ApiCall → Bool
  | .checkAvailability _ => false
  | .uploadOgImage _ _ => false
  | _ => true

/-! ### Response handling of the `request` helper -/

/-- What the `request` helper sees of an HTTP response: the `ok` flag,
    numeric status, status text, and the result of `response.json()` —
    `some j` when the body parses to the JSON value `j`, `none` when
    parsing rejects. -/
structure HttpResponse where
  ok : Bool
  status : Int
  statusText : String
  body : Option Json

/-- A thrown `new Error(message)`: a plain JS `Error` carries nothing but
    its message (and name/stack); the client attaches no further fields. -/
structure ThrownError where
  message : String
deriving Repr, DecidableEq

/-- The outcome of `request` after the response arrives. -/
inductive ReqOutcome where
  /-- 2xx and the body parsed: the parsed JSON is returned. -/
  | ok (j : Json)
  /-- An `Error` thrown by the client code itself. -/
  | thrown (e : ThrownError)
  /-- The rejection of `response.json()` on the 2xx path, propagated as-is. -/
  | parseError
  /-- The `TypeError` raised by evaluating `error.message` when the non-2xx
      body parsed to JSON `null` (reading a property of `null` crashes),
      propagated to the caller. -/
  | typeError

/-- Whether a parsed JSON value is `null` — the one parse result on which
    the property access `error.message` crashes instead of yielding
    `undefined`. -/
def Json.isNull : Json → Bool
  | .null => true
  | _ => false

/-- `error.message` of a parsed error body: the `message` field when it is
    a string, otherwise absent.  (Bodies whose `message` field holds a
    non-string value are outside the model.) -/
def Json.getMessage : Json → Option String
  | .obj fields =>
      match fields.find? (fun f => f.1 = "message") with
      | some f => match f.2 with
                  | .str s => some s
                  | _ => none
      | none => none
  | _ => none

/-- Lines 66–71 of `src/client.ts`: on `!response.ok`, compute
    `error` = the parsed body, falling back to
    `\x7b message: response.statusText \x7d` when parsing rejects; then
    evaluate `error.message` — which crashes with a `TypeError` when the
    body parsed to JSON `null` — and throw
    `new Error(error.message || "HTTP " + status)`; on `ok`, return the
    parsed body, propagating a parse rejection. -/
def HoulaClient.handleResponse (r : HttpResponse) : ReqOutcome :=
  if r.ok then
    match r.body with
    | some j => .ok j
    | none => .parseError
  else
    let error : Json :=
      match r.body with
      | some j => j
      | none => .obj [("message", .str r.statusText)]
    if error.isNull then .typeError
    else
      match error.getMessage with
      | some m => if m = "" then .thrown ⟨"HTTP " ++ toString r.status⟩ else .thrown ⟨m⟩
      | none => .thrown ⟨"HTTP " ++ toString r.status⟩

/-- The outcome of `checkAvailability` after its response arrives
    (`src/client.ts`, line 95): `response.json()` unconditionally — the
    parsed body on success, a propagated parse rejection otherwise; the
    `ok` flag and status are never consulted and nothing is thrown. -/
inductive AvailOutcome where
  | parsed (j : Json)
  | parseError

/-- `checkAvailability`'s response handling, as a function of the full
    response: `return response.json()`. -/
def HoulaClient.handleAvailabilityResponse (r : HttpResponse) : AvailOutcome :=
  match r.body with
  | some j => .parsed j
  | none => .parseError

/-- A concrete resolved configuration (the one the repository's test suite
    uses), for instantiating witnesses and counterexamples. -/
def testCfg : ResolvedConfig :=
  { apiKey := "houla_sk_test_key_12345678901234567890"
    apiUrl := "https://api.test.com"
    timeout := 5000
    workspaceId := none }

/-- A resolved configuration carrying a workspace id. -/
def wsCfg : ResolvedConfig :=
  { apiKey := "houla_sk_test_key"
    apiUrl := "https://hou.la"
    timeout := 30000
    workspaceId := some "ws-uuid-001" }

/-! ### Helper lemmas -/

theorem strStartsWith_empty_houla : strStartsWith "" "houla_sk_" = false := by decide

/-- A relative endpoint (leading `/`) is never taken for an absolute URL by
    `request`'s `endpoint.startsWith("http")` test. -/
theorem requestUrl_of_head_slash (cfg : ResolvedConfig) (e : String)
    (h : e.data.head? = some '/') : HoulaClient.requestUrl cfg e = cfg.apiUrl ++ e := by
  unfold HoulaClient.requestUrl
  have hfalse : strStartsWith e "http" = false := by
    unfold strStartsWith
    cases hd : e.data with
    | nil => simp [hd] at h
    | cons c l =>
      have hc : c = '/' := by simp [hd] at h; exact h
      subst hc
      rfl
  simp [hfalse]

/-- The headers of every issued request fall into three shapes: the two
    standard headers (plus `X-Source` for `createLink`) for every method
    routed through `request`; `X-API-Key` alone for `uploadOgImage`; and
    no headers at all for `checkAvailability`. -/
theorem run_headers_cases (cfg : ResolvedConfig) (c : ApiCall) :
    (c.viaRequestHelper = true ∧
      ((HoulaClient.run cfg c).headers
          = [("Content-Type", "application/json"), ("X-API-Key", cfg.apiKey)]
        ∨ ∃ s, (HoulaClient.run cfg c).headers
          = [("Content-Type", "application/json"), ("X-API-Key", cfg.apiKey), ("X-Source", s)]))
  ∨ ((∃ lid fn, c = ApiCall.uploadOgImage lid fn)
        ∧ (HoulaClient.run cfg c).headers = [("X-API-Key", cfg.apiKey)])
  ∨ ((∃ k, c = ApiCall.checkAvailability k) ∧ (HoulaClient.run cfg c).headers = []) := by
  cases c <;>
    simp [HoulaClient.run, ApiCall.viaRequestHelper, HoulaClient.request,
      HoulaClient.getLinks, HoulaClient.getLinkById, HoulaClient.getLinkByKey,
      HoulaClient.checkAvailability, HoulaClient.createLink, HoulaClient.updateLink,
      HoulaClient.deleteLink, HoulaClient.uploadOgImage, HoulaClient.deleteOgImage,
      HoulaClient.getQRCode, HoulaClient.getQRCodePng, HoulaClient.getQRCodeSvg,
      HoulaClient.getLinkRules, HoulaClient.createLinkRule, HoulaClient.updateLinkRule,
      HoulaClient.deleteLinkRule, HoulaClient.reorderLinkRules, HoulaClient.getWebhooks,
      HoulaClient.getWebhookById, HoulaClient.createWebhook, HoulaClient.updateWebhook,
      HoulaClient.deleteWebhook, HoulaClient.enableWebhook, HoulaClient.disableWebhook,
      HoulaClient.testWebhook, HoulaClient.regenerateWebhookSecret, HoulaClient.getWebhookSecret,
      HoulaClient.getWebhookLogs, HoulaClient.getWebhookStats, HoulaClient.listPixelPresets,
      HoulaClient.getPixelPreset, HoulaClient.createPixelPreset, HoulaClient.updatePixelPreset,
      HoulaClient.deletePixelPreset, HoulaClient.listDomains, HoulaClient.getDomain,
      HoulaClient.createDomain, HoulaClient.verifyDomain, HoulaClient.changeDomainVerificationMethod,
      HoulaClient.deleteDomain, HoulaClient.listBioPages, HoulaClient.getBioPage,
      HoulaClient.createBioPage, HoulaClient.updateBioPage, HoulaClient.deleteBioPage,
      HoulaClient.setBioPageAsDefault, HoulaClient.attachCustomDomainToBioPage]

/-- Every method except `checkAvailability` arms the abort timer with the
    configured timeout and attaches the controller's signal;
    `checkAvailability` does neither. -/
theorem run_timeout_cases (cfg : ResolvedConfig) (c : ApiCall) :
    (c.usesRawFetch = false →
      (HoulaClient.run cfg c).timerMs = some cfg.timeout
        ∧ (HoulaClient.run cfg c).hasAbortSignal = true)
  ∧ (c.usesRawFetch = true →
      (HoulaClient.run cfg c).timerMs = none
        ∧ (HoulaClient.run cfg c).hasAbortSignal = false) := by
  cases c <;>
    simp [HoulaClient.run, ApiCall.usesRawFetch, HoulaClient.request,
      HoulaClient.getLinks, HoulaClient.getLinkById, HoulaClient.getLinkByKey,
      HoulaClient.checkAvailability, HoulaClient.createLink, HoulaClient.updateLink,
      HoulaClient.deleteLink, HoulaClient.uploadOgImage, HoulaClient.deleteOgImage,
      HoulaClient.getQRCode, HoulaClient.getQRCodePng, HoulaClient.getQRCodeSvg,
      HoulaClient.getLinkRules, HoulaClient.createLinkRule, HoulaClient.updateLinkRule,
      HoulaClient.deleteLinkRule, HoulaClient.reorderLinkRules, HoulaClient.getWebhooks,
      HoulaClient.getWebhookById, HoulaClient.createWebhook, HoulaClient.updateWebhook,
      HoulaClient.deleteWebhook, HoulaClient.enableWebhook, HoulaClient.disableWebhook,
      HoulaClient.testWebhook, HoulaClient.regenerateWebhookSecret, HoulaClient.getWebhookSecret,
      HoulaClient.getWebhookLogs, HoulaClient.getWebhookStats, HoulaClient.listPixelPresets,
      HoulaClient.getPixelPreset, HoulaClient.createPixelPreset, HoulaClient.updatePixelPreset,
      HoulaClient.deletePixelPreset, HoulaClient.listDomains, HoulaClient.getDomain,
      HoulaClient.createDomain, HoulaClient.verifyDomain, HoulaClient.changeDomainVerificationMethod,
      HoulaClient.deleteDomain, HoulaClient.listBioPages, HoulaClient.getBioPage,
      HoulaClient.createBioPage, HoulaClient.updateBioPage, HoulaClient.deleteBioPage,
      HoulaClient.setBioPageAsDefault, HoulaClient.attachCustomDomainToBioPage]

theorem Json.isNull_eq_false (j : Json) (h : j ≠ Json.null) : j.isNull = false := by
  cases j <;> simp [Json.isNull] at h ⊢

theorem intercalate_go_length (s : String) (as : List String) (acc : String) :
    acc.length ≤ (String.intercalate.go acc s as).length := by
  induction as generalizing acc with
  | nil => simp [String.intercalate.go]
  | cons a as ih =>
    have h1 : acc.length ≤ (acc ++ s ++ a).length := by simp; omega
    have h2 := ih (acc ++ s ++ a)
    calc acc.length ≤ (acc ++ s ++ a).length := h1
      _ ≤ (String.intercalate.go (acc ++ s ++ a) s as).length := h2
      _ = (String.intercalate.go acc s (a :: as)).length := by
            rw [String.intercalate.go]

/-- The serialized query of a non-empty parameter list is non-empty
    (each entry contains at least the `=` sign). -/
theorem paramsToString_ne_empty (p : String × String) (rest : List (String × String)) :
    paramsToString (p :: rest) ≠ "" := by
  intro h
  have hlen : (paramsToString (p :: rest)).length = 0 := by rw [h]; rfl
  unfold paramsToString at hlen
  simp only [List.map_cons, String.intercalate] at hlen
  have h1 : (formEncode p.1 ++ "=" ++ formEncode p.2).length ≥ 1 := by
    have he : ("=" : String).length = 1 := rfl
    simp [String.length_append, he]
    omega
  have h2 := intercalate_go_length "&" (rest.map (fun p => formEncode p.1 ++ "=" ++ formEncode p.2))
    (formEncode p.1 ++ "=" ++ formEncode p.2)
  omega

set_option maxHeartbeats 2000000 in
/-- Characterization of the query `getQRCode` builds: `width`,
    `darkColor`, `lightColor`, `errorCorrectionLevel` and `format` appear
    exactly when provided and truthy, `margin` exactly when provided. -/
theorem qrcodeQuery_lookup (o : QRCodeOptions) :
    lookupParam (HoulaClient.qrcodeQuery o) "width"
        = (match o.width with | some w => if w = 0 then none else some (toString w) | none => none)
  ∧ lookupParam (HoulaClient.qrcodeQuery o) "margin" = (o.margin.map fun m => toString m)
  ∧ lookupParam (HoulaClient.qrcodeQuery o) "darkColor"
        = (match o.darkColor with | some s => if s = "" then none else some s | none => none)
  ∧ lookupParam (HoulaClient.qrcodeQuery o) "lightColor"
        = (match o.lightColor with | some s => if s = "" then none else some s | none => none)
  ∧ lookupParam (HoulaClient.qrcodeQuery o) "errorCorrectionLevel"
        = (match o.errorCorrectionLevel with | some s => if s = "" then none else some s | none => none)
  ∧ lookupParam (HoulaClient.qrcodeQuery o) "format"
        = (match o.format with | some s => if s = "" then none else some s | none => none) := by
  obtain ⟨w, m, dc, lc, ec, f⟩ := o
  rcases w with _ | w <;> rcases m with _ | m <;> rcases dc with _ | dc <;>
    rcases lc with _ | lc <;> rcases ec with _ | ec <;> rcases f with _ | f <;>
      simp only [HoulaClient.qrcodeQuery] <;> (try split_ifs) <;>
      simp_all [searchParamsSet, lookupParam]

theorem getQRCode_url_if (cfg : ResolvedConfig) (id : String) (o : QRCodeOptions) :
    (HoulaClient.getQRCode cfg id o).url
      = cfg.apiUrl ++ ("/api/link/" ++ id ++ "/qrcode"
          ++ (if paramsToString (HoulaClient.qrcodeQuery o) = "" then ""
              else "?" ++ paramsToString (HoulaClient.qrcodeQuery o))) := by
  have h := requestUrl_of_head_slash cfg
    ("/api/link/" ++ id ++ "/qrcode"
      ++ (if paramsToString (HoulaClient.qrcodeQuery o) = "" then ""
          else "?" ++ paramsToString (HoulaClient.qrcodeQuery o)))
    (by simp only [String.data_append]; rfl)
  simpa [HoulaClient.getQRCode, HoulaClient.request] using h

/-- When the QR query provably contains some parameter, the issued URL
    carries the serialized query after a `?`. -/
theorem getQRCode_url_of_lookup (cfg : ResolvedConfig) (id : String) (o : QRCodeOptions)
    (k v : String) (h : lookupParam (HoulaClient.qrcodeQuery o) k = some v) :
    (HoulaClient.getQRCode cfg id o).url
      = cfg.apiUrl ++ ("/api/link/" ++ id ++ "/qrcode"
          ++ ("?" ++ paramsToString (HoulaClient.qrcodeQuery o))) := by
  cases hq : HoulaClient.qrcodeQuery o with
  | nil => rw [hq] at h; simp at h
  | cons p rest =>
    rw [getQRCode_url_if, hq, if_neg (paramsToString_ne_empty p rest)]

/-! ### Claims -/

/-- C3: `createConfig` fails exactly when the apiKey is empty or lacks the
    `houla_sk_` prefix; on any correctly-prefixed key it succeeds and
    returns a fully-populated record, defaulting `apiUrl` to
    `https://hou.la` and `timeout` to 30000 when they are not supplied,
    with no side effects (the embedded function is pure). -/
theorem C3_createConfig_spec (c : HoulaConfig) :
    ((∃ e, createConfig c = Except.error e) ↔
      (c.apiKey = "" ∨ strStartsWith c.apiKey "houla_sk_" = false))
  ∧ (strStartsWith c.apiKey "houla_sk_" = true →
      ∃ rc : ResolvedConfig, createConfig c = Except.ok rc
        ∧ rc.apiKey = c.apiKey
        ∧ rc.workspaceId = c.workspaceId
        ∧ (c.apiUrl = none → rc.apiUrl = "https://hou.la")
        ∧ (c.timeout = none → rc.timeout = 30000)
        ∧ (∀ u, c.apiUrl = some u → u ≠ "" → rc.apiUrl = u)
        ∧ (∀ t, c.timeout = some t → t ≠ 0 → rc.timeout = t)) := by
  constructor
  · constructor
    · rintro ⟨e, he⟩
      by_cases h1 : c.apiKey = ""
      · exact Or.inl h1
      · by_cases h2 : strStartsWith c.apiKey "houla_sk_" = true
        · simp [createConfig, h1, h2] at he
        · exact Or.inr (by simpa using h2)
    · intro h
      unfold createConfig
      rcases h with h | h
      · rw [if_pos h]; exact ⟨_, rfl⟩
      · by_cases h1 : c.apiKey = ""
        · rw [if_pos h1]; exact ⟨_, rfl⟩
        · rw [if_neg h1, if_pos (by simp [h])]; exact ⟨_, rfl⟩
  · intro h2
    have h1 : c.apiKey ≠ "" := by
      intro h1
      rw [h1, strStartsWith_empty_houla] at h2
      exact Bool.false_ne_true h2
    refine ⟨{ apiKey := c.apiKey
              apiUrl := strOrDefault c.apiUrl DEFAULT_CONFIG_apiUrl
              timeout := numOrDefault c.timeout DEFAULT_CONFIG_timeout
              workspaceId := c.workspaceId },
            by unfold createConfig; rw [if_neg h1, if_neg (by simp [h2])],
            rfl, rfl, ?_, ?_, ?_, ?_⟩
    · intro h; simp [strOrDefault, h, DEFAULT_CONFIG_apiUrl]
    · intro h; simp [numOrDefault, h, DEFAULT_CONFIG_timeout]
    · intro u hu hne; simp [strOrDefault, hu, hne]
    · intro t ht htne; simp [numOrDefault, ht, htne]

/-- Witness for C3 at a concrete config: the prefixed key
    `houla_sk_live_1` succeeds and both defaults are filled in. -/
theorem C3_createConfig_spec_witness :
    strStartsWith "houla_sk_live_1" "houla_sk_" = true
  ∧ ∃ rc : ResolvedConfig,
      createConfig { apiKey := "houla_sk_live_1" } = Except.ok rc
      ∧ rc.apiKey = "houla_sk_live_1"
      ∧ rc.workspaceId = none
      ∧ ((none : Option String) = none → rc.apiUrl = "https://hou.la")
      ∧ ((none : Option Int) = none → rc.timeout = 30000) := by
  refine ⟨by decide, ?_⟩
  obtain ⟨rc, hok, hkey, hws, hurl, htime, -, -⟩ :=
    (C3_createConfig_spec { apiKey := "houla_sk_live_1" }).2 (by decide)
  exact ⟨rc, hok, hkey, hws, hurl, htime⟩

/-- C9: `createConfig` tests the optional fields for truthiness, so
    `timeout: 0` and `apiUrl: ""` behave exactly like omitting the fields
    and yield the defaults 30000 and `https://hou.la`. -/
theorem C9_falsy_fields_get_defaults (c : HoulaConfig) :
    createConfig { c with apiUrl := some "", timeout := some 0 }
      = createConfig { c with apiUrl := none, timeout := none }
  ∧ (∀ rc, createConfig { c with apiUrl := some "", timeout := some 0 } = Except.ok rc →
      rc.apiUrl = "https://hou.la" ∧ rc.timeout = 30000) := by
  constructor
  · simp [createConfig, strOrDefault, numOrDefault]
  · intro rc h
    by_cases h1 : c.apiKey = ""
    · simp [createConfig, h1] at h
    · by_cases h2 : strStartsWith c.apiKey "houla_sk_" = true
      · simp [createConfig, h1, h2, strOrDefault, numOrDefault] at h
        rw [← h]
        exact ⟨rfl, rfl⟩
      · simp [createConfig, h1, h2] at h

/-- Witness for C9 at a concrete config with `apiUrl: ""` and `timeout: 0`. -/
theorem C9_falsy_fields_get_defaults_witness :
    createConfig { apiKey := "houla_sk_live_1", apiUrl := some "", timeout := some 0 }
      = createConfig { apiKey := "houla_sk_live_1", apiUrl := none, timeout := none }
  ∧ ((createConfig { apiKey := "houla_sk_live_1", apiUrl := some "", timeout := some 0 }
        = Except.ok { apiKey := "houla_sk_live_1", apiUrl := "https://hou.la",
                      timeout := 30000, workspaceId := none })
     ∧ ("https://hou.la" = "https://hou.la" ∧ (30000 : Int) = 30000)) := by
  refine ⟨(C9_falsy_fields_get_defaults { apiKey := "houla_sk_live_1" }).1, rfl, ?_⟩
  exact (C9_falsy_fields_get_defaults { apiKey := "houla_sk_live_1" }).2
    { apiKey := "houla_sk_live_1", apiUrl := "https://hou.la", timeout := 30000, workspaceId := none }
    rfl

/-- C5: `getLinks(page, limit)` sends `limit = Math.min(limit, 100)`
    (clamped to at most 100) and the literal `page` it received —
    including `page = 0`. -/
theorem C5_getLinks_query (cfg : ResolvedConfig) (page limit : Int) :
    lookupParam (HoulaClient.getLinksQuery page limit) "page" = some (toString page)
  ∧ lookupParam (HoulaClient.getLinksQuery page limit) "limit" = some (toString (min limit 100))
  ∧ (HoulaClient.getLinks cfg page limit).url
      = cfg.apiUrl ++ ("/api/link?" ++ paramsToString (HoulaClient.getLinksQuery page limit))
  ∧ lookupParam (HoulaClient.getLinksQuery 0 limit) "page" = some "0" := by
  refine ⟨by simp [HoulaClient.getLinksQuery], by simp [HoulaClient.getLinksQuery], ?_, ?_⟩
  · have := requestUrl_of_head_slash cfg
      ("/api/link?" ++ paramsToString (HoulaClient.getLinksQuery page limit))
      (by rw [String.data_append]; rfl)
    simpa [HoulaClient.getLinks, HoulaClient.request] using this
  · simp [HoulaClient.getLinksQuery]
    rfl

/-- C1 counterexample: `checkAvailability` issues a request carrying
    neither the `X-API-Key` header nor the `Content-Type` header, so the
    claim that every request of every public method carries both is false. -/
theorem C1_counterexample_checkAvailability :
    headerValue (HoulaClient.run testCfg (.checkAvailability "my-key")).headers "X-API-Key" = none
  ∧ headerValue (HoulaClient.run testCfg (.checkAvailability "my-key")).headers "Content-Type" = none :=
  ⟨rfl, rfl⟩

/-- C1 (amended): every request issued through the private `request`
    helper carries `X-API-Key` (the configured key) and
    `Content-Type: application/json`; `uploadOgImage` carries `X-API-Key`
    but no `Content-Type`; `checkAvailability` carries no headers at all. -/
theorem C1_amended_headers (cfg : ResolvedConfig) (c : ApiCall) :
    (c.viaRequestHelper = true →
        headerValue (HoulaClient.run cfg c).headers "X-API-Key" = some cfg.apiKey
      ∧ headerValue (HoulaClient.run cfg c).headers "Content-Type" = some "application/json")
  ∧ ((∃ lid fn, c = ApiCall.uploadOgImage lid fn) →
        headerValue (HoulaClient.run cfg c).headers "X-API-Key" = some cfg.apiKey
      ∧ headerValue (HoulaClient.run cfg c).headers "Content-Type" = none)
  ∧ ((∃ k, c = ApiCall.checkAvailability k) → (HoulaClient.run cfg c).headers = []) := by
  rcases run_headers_cases cfg c with ⟨hv, h | ⟨s, h⟩⟩ | ⟨⟨lid, fn, hc⟩, h⟩ | ⟨⟨k, hc⟩, h⟩
  · refine ⟨fun _ => ⟨?_, ?_⟩, fun hu => ?_, fun ha => ?_⟩
    · rw [h]; rfl
    · rw [h]; rfl
    · obtain ⟨lid, fn, hc⟩ := hu; subst hc; simp [ApiCall.viaRequestHelper] at hv
    · obtain ⟨k, hc⟩ := ha; subst hc; simp [ApiCall.viaRequestHelper] at hv
  · refine ⟨fun _ => ⟨?_, ?_⟩, fun hu => ?_, fun ha => ?_⟩
    · rw [h]; rfl
    · rw [h]; rfl
    · obtain ⟨lid, fn, hc⟩ := hu; subst hc; simp [ApiCall.viaRequestHelper] at hv
    · obtain ⟨k, hc⟩ := ha; subst hc; simp [ApiCall.viaRequestHelper] at hv
  · subst hc
    refine ⟨fun hv => ?_, fun _ => ?_, fun ha => ?_⟩
    · simp [ApiCall.viaRequestHelper] at hv
    · rw [h]; exact ⟨rfl, rfl⟩
    · obtain ⟨k, hc⟩ := ha; cases hc
  · subst hc
    refine ⟨fun hv => ?_, fun hu => ?_, fun _ => h⟩
    · simp [ApiCall.viaRequestHelper] at hv
    · obtain ⟨lid, fn, hc⟩ := hu; cases hc

/-- Witness for C1 (amended), at one helper-routed call, one upload and
    one availability check against the concrete test configuration. -/
theorem C1_amended_headers_witness :
    (headerValue (HoulaClient.run testCfg (.getLinks 1 20)).headers "X-API-Key" = some testCfg.apiKey
      ∧ headerValue (HoulaClient.run testCfg (.getLinks 1 20)).headers "Content-Type"
          = some "application/json")
  ∧ (headerValue (HoulaClient.run testCfg (.uploadOgImage "lid-1" "og-image")).headers "X-API-Key"
          = some testCfg.apiKey
      ∧ headerValue (HoulaClient.run testCfg (.uploadOgImage "lid-1" "og-image")).headers "Content-Type"
          = none)
  ∧ (HoulaClient.run testCfg (.checkAvailability "k1")).headers = [] :=
  ⟨(C1_amended_headers testCfg (.getLinks 1 20)).1 rfl,
   (C1_amended_headers testCfg (.uploadOgImage "lid-1" "og-image")).2.1 ⟨"lid-1", "og-image", rfl⟩,
   (C1_amended_headers testCfg (.checkAvailability "k1")).2.2 ⟨"k1", rfl⟩⟩

/-- C2 counterexample: a non-2xx response whose body parses to a JSON
    object without a `message` field makes `request` throw
    `Error("HTTP 500")`, not the HTTP status text, and the thrown value is
    a plain `Error` holding nothing but that message string. -/
theorem C2_counterexample_no_message_field :
    HoulaClient.handleResponse
        { ok := false, status := 500, statusText := "Internal Server Error", body := some (Json.obj []) }
      = ReqOutcome.thrown ⟨"HTTP 500"⟩
  ∧ "HTTP 500" ≠ "Internal Server Error" :=
  ⟨rfl, by decide⟩

/-- C2 (amended): through the `request` helper a non-2xx response whose
    body parses to JSON `null` crashes the client itself with a
    `TypeError` (reading `error.message` of `null`), which propagates as
    the failure; any other non-2xx response throws a plain `Error` (no
    status-code field; the status appears only inside the fallback message
    text) whose message is the server `message` field when present and
    non-empty, else the HTTP status text when the body is unparsable, else
    the string `HTTP <status>`; `checkAvailability` never fails on non-2xx
    and simply returns the parsed body. -/
theorem C2_amended_error_translation (r : HttpResponse) (h : r.ok = false) :
    (r.body = some Json.null → HoulaClient.handleResponse r = ReqOutcome.typeError)
  ∧ (r.body ≠ some Json.null →
      HoulaClient.handleResponse r = ReqOutcome.thrown
        ⟨match r.body with
          | some j =>
              match j.getMessage with
              | some m => if m = "" then "HTTP " ++ toString r.status else m
              | none => "HTTP " ++ toString r.status
          | none => if r.statusText = "" then "HTTP " ++ toString r.status else r.statusText⟩)
  ∧ (∀ j, HoulaClient.handleAvailabilityResponse { r with body := some j } = AvailOutcome.parsed j) := by
  refine ⟨?_, ?_, fun j => rfl⟩
  · intro hb
    unfold HoulaClient.handleResponse
    rw [h, hb]
    rfl
  · intro hb
    unfold HoulaClient.handleResponse
    rw [h]
    simp only [Bool.false_eq_true, if_false]
    cases hbody : r.body with
    | none =>
      by_cases hst : r.statusText = "" <;> simp [Json.isNull, Json.getMessage, hst]
    | some j =>
      have hj : j.isNull = false :=
        Json.isNull_eq_false j (by intro hjn; rw [hjn] at hbody; exact hb hbody)
      cases hm : j.getMessage with
      | none => simp [hj, hm]
      | some m => by_cases hme : m = "" <;> simp [hj, hm, hme]

/-- Witness for C2 (amended): a 404 with a server message throws exactly
    that message, a 500 whose body is JSON `null` crashes with the
    propagated `TypeError`, and a non-2xx availability check still yields
    the parsed body. -/
theorem C2_amended_error_translation_witness :
    HoulaClient.handleResponse
        { ok := false, status := 404, statusText := "Not Found",
          body := some (Json.obj [("message", Json.str "Link not found")]) }
      = ReqOutcome.thrown ⟨"Link not found"⟩
  ∧ HoulaClient.handleResponse
        { ok := false, status := 500, statusText := "Internal Server Error",
          body := some Json.null }
      = ReqOutcome.typeError
  ∧ HoulaClient.handleAvailabilityResponse
        { ok := false, status := 404, statusText := "Not Found",
          body := some (Json.obj [("available", Json.bool false)]) }
      = AvailOutcome.parsed (Json.obj [("available", Json.bool false)]) :=
  ⟨(C2_amended_error_translation
      { ok := false, status := 404, statusText := "Not Found",
        body := some (Json.obj [("message", Json.str "Link not found")]) } rfl).2.1 (by simp),
   (C2_amended_error_translation
      { ok := false, status := 500, statusText := "Internal Server Error",
        body := some Json.null } rfl).1 rfl,
   (C2_amended_error_translation
      { ok := false, status := 404, statusText := "Not Found",
        body := none } rfl).2.2 (Json.obj [("available", Json.bool false)])⟩

/-- C4: the claim is contradicted by the code: even with a workspace id in
    the configuration (and `config.ts` documenting that every request will
    then carry `X-Workspace-Id`), no request built by `src/client.ts`
    ever contains an `X-Workspace-Id` header, and the client has no
    `setWorkspaceId` method at all. -/
theorem C4_workspace_header_never_sent :
    createConfig { apiKey := "houla_sk_test_key", workspaceId := some "ws-uuid-001" }
      = Except.ok wsCfg
  ∧ wsCfg.workspaceId = some "ws-uuid-001"
  ∧ ∀ c : ApiCall, headerValue (HoulaClient.run wsCfg c).headers "X-Workspace-Id" = none := by
  refine ⟨rfl, rfl, fun c => ?_⟩
  rcases run_headers_cases wsCfg c with ⟨-, h | ⟨s, h⟩⟩ | ⟨-, h⟩ | ⟨-, h⟩ <;> rw [h] <;> rfl

/-- C6: `getQRCodePng` and `getQRCodeSvg` always force `format=png` /
    `format=svg` in the query string, regardless of any other options
    passed — the spread `\x7b ...options, format: ... \x7d` puts the forced
    format last, and the forced query is never empty. -/
theorem C6_format_forced (cfg : ResolvedConfig) (id : String) (o : QRCodeOptions) :
    HoulaClient.getQRCodePng cfg id o = HoulaClient.getQRCode cfg id (HoulaClient.pngOptions o)
  ∧ HoulaClient.getQRCodeSvg cfg id o = HoulaClient.getQRCode cfg id (HoulaClient.svgOptions o)
  ∧ lookupParam (HoulaClient.qrcodeQuery (HoulaClient.pngOptions o)) "format" = some "png"
  ∧ lookupParam (HoulaClient.qrcodeQuery (HoulaClient.svgOptions o)) "format" = some "svg"
  ∧ (HoulaClient.getQRCodePng cfg id o).url
      = cfg.apiUrl ++ ("/api/link/" ++ id ++ "/qrcode"
          ++ ("?" ++ paramsToString (HoulaClient.qrcodeQuery (HoulaClient.pngOptions o))))
  ∧ (HoulaClient.getQRCodeSvg cfg id o).url
      = cfg.apiUrl ++ ("/api/link/" ++ id ++ "/qrcode"
          ++ ("?" ++ paramsToString (HoulaClient.qrcodeQuery (HoulaClient.svgOptions o)))) := by
  have hpng : lookupParam (HoulaClient.qrcodeQuery (HoulaClient.pngOptions o)) "format" = some "png" := by
    have h := (qrcodeQuery_lookup (HoulaClient.pngOptions o)).2.2.2.2.2
    simpa [HoulaClient.pngOptions, QRCodeFormat.PNG] using h
  have hsvg : lookupParam (HoulaClient.qrcodeQuery (HoulaClient.svgOptions o)) "format" = some "svg" := by
    have h := (qrcodeQuery_lookup (HoulaClient.svgOptions o)).2.2.2.2.2
    simpa [HoulaClient.svgOptions, QRCodeFormat.SVG] using h
  refine ⟨rfl, rfl, hpng, hsvg, ?_, ?_⟩
  · exact getQRCode_url_of_lookup cfg id (HoulaClient.pngOptions o) "format" "png" hpng
  · exact getQRCode_url_of_lookup cfg id (HoulaClient.svgOptions o) "format" "svg" hsvg

/-- C7: every mutating call's JSON body is exactly `JSON.stringify` of the
    object holding the fields the caller provided — the client adds no keys
    of its own (`reorderLinkRules` and `changeDomainVerificationMethod`
    serialize the single-field wrapper object `\x7b ruleIds \x7d` /
    `\x7b method \x7d` around their named parameter, again with no extras). -/
theorem C7_mutating_bodies (cfg : ResolvedConfig) (data : Dto)
    (id linkId ruleId source m : String) (ruleIds : List String) :
    (HoulaClient.run cfg (.createLink data source)).body
        = some (.json (Json.stringify (.obj data)))
  ∧ (HoulaClient.run cfg (.updateLink id data)).body = some (.json (Json.stringify (.obj data)))
  ∧ (HoulaClient.run cfg (.createLinkRule linkId data)).body
        = some (.json (Json.stringify (.obj data)))
  ∧ (HoulaClient.run cfg (.updateLinkRule linkId ruleId data)).body
        = some (.json (Json.stringify (.obj data)))
  ∧ (HoulaClient.run cfg (.reorderLinkRules linkId ruleIds)).body
        = some (.json (Json.stringify (.obj [("ruleIds", .arr (ruleIds.map .str))])))
  ∧ (HoulaClient.run cfg (.createWebhook data)).body = some (.json (Json.stringify (.obj data)))
  ∧ (HoulaClient.run cfg (.updateWebhook id data)).body = some (.json (Json.stringify (.obj data)))
  ∧ (HoulaClient.run cfg (.createPixelPreset data)).body
        = some (.json (Json.stringify (.obj data)))
  ∧ (HoulaClient.run cfg (.updatePixelPreset id data)).body
        = some (.json (Json.stringify (.obj data)))
  ∧ (HoulaClient.run cfg (.createDomain data)).body = some (.json (Json.stringify (.obj data)))
  ∧ (HoulaClient.run cfg (.changeDomainVerificationMethod id m)).body
        = some (.json (Json.stringify (.obj [("method", .str m)])))
  ∧ (HoulaClient.run cfg (.createBioPage data)).body = some (.json (Json.stringify (.obj data)))
  ∧ (HoulaClient.run cfg (.updateBioPage id data)).body = some (.json (Json.stringify (.obj data)))
  ∧ (HoulaClient.run cfg (.attachCustomDomainToBioPage id data)).body
        = some (.json (Json.stringify (.obj data))) :=
  ⟨rfl, rfl, rfl, rfl, rfl, rfl, rfl, rfl, rfl, rfl, rfl, rfl, rfl, rfl⟩

/-- C8 counterexample: `checkAvailability` issues its request with no
    abort signal and no timer at all, so not every request is bounded by
    the configured timeout. -/
theorem C8_counterexample_no_timeout :
    (HoulaClient.run testCfg (.checkAvailability "my-key")).timerMs = none
  ∧ (HoulaClient.run testCfg (.checkAvailability "my-key")).hasAbortSignal = false :=
  ⟨rfl, rfl⟩

/-- C8 (amended): every request except `checkAvailability`'s is issued
    with the controller's abort signal attached and a
    `setTimeout(() => controller.abort(), config.timeout)` armed, so its
    expiry aborts the pending request; `checkAvailability` has neither. -/
theorem C8_amended_timeout (cfg : ResolvedConfig) (c : ApiCall) :
    (c.usesRawFetch = false →
      (HoulaClient.run cfg c).timerMs = some cfg.timeout
        ∧ (HoulaClient.run cfg c).hasAbortSignal = true)
  ∧ (c.usesRawFetch = true →
      (HoulaClient.run cfg c).timerMs = none
        ∧ (HoulaClient.run cfg c).hasAbortSignal = false) :=
  run_timeout_cases cfg c

/-- Witness for C8 (amended) at a helper-routed call and at
    `checkAvailability`, against the concrete test configuration. -/
theorem C8_amended_timeout_witness :
    ((HoulaClient.run testCfg (.getLinks 1 20)).timerMs = some testCfg.timeout
      ∧ (HoulaClient.run testCfg (.getLinks 1 20)).hasAbortSignal = true)
  ∧ ((HoulaClient.run testCfg (.checkAvailability "k2")).timerMs = none
      ∧ (HoulaClient.run testCfg (.checkAvailability "k2")).hasAbortSignal = false) :=
  ⟨(C8_amended_timeout testCfg (.getLinks 1 20)).1 rfl,
   (C8_amended_timeout testCfg (.checkAvailability "k2")).2 rfl⟩

/-- C10 counterexample: `darkColor` provided as the empty string is
    omitted from the query (it is tested for truthiness, not presence),
    so "all other provided options are included" fails. -/
theorem C10_counterexample_empty_darkColor :
    lookupParam (HoulaClient.qrcodeQuery
      { width := none, margin := none, darkColor := some "", lightColor := none,
        errorCorrectionLevel := none, format := none }) "darkColor" = none := rfl

/-- C10 (amended): `width = 0` is omitted while `margin = 0` is sent as
    `margin=0`; the remaining options are included exactly when provided
    and truthy (a provided empty string is omitted, like `width = 0`);
    with no options set the URL carries no query string. -/
theorem C10_amended_qrcode_truthiness (cfg : ResolvedConfig) (id : String) (o : QRCodeOptions) :
    (o.width = some 0 → lookupParam (HoulaClient.qrcodeQuery o) "width" = none)
  ∧ (∀ mv, o.margin = some mv → lookupParam (HoulaClient.qrcodeQuery o) "margin" = some (toString mv))
  ∧ (∀ w, o.width = some w → w ≠ 0 →
      lookupParam (HoulaClient.qrcodeQuery o) "width" = some (toString w))
  ∧ (∀ s, o.darkColor = some s → s ≠ "" →
      lookupParam (HoulaClient.qrcodeQuery o) "darkColor" = some s)
  ∧ (∀ s, o.darkColor = some s → s = "" →
      lookupParam (HoulaClient.qrcodeQuery o) "darkColor" = none)
  ∧ (∀ s, o.lightColor = some s → s ≠ "" →
      lookupParam (HoulaClient.qrcodeQuery o) "lightColor" = some s)
  ∧ (∀ s, o.lightColor = some s → s = "" →
      lookupParam (HoulaClient.qrcodeQuery o) "lightColor" = none)
  ∧ (∀ s, o.errorCorrectionLevel = some s → s ≠ "" →
      lookupParam (HoulaClient.qrcodeQuery o) "errorCorrectionLevel" = some s)
  ∧ (∀ s, o.errorCorrectionLevel = some s → s = "" →
      lookupParam (HoulaClient.qrcodeQuery o) "errorCorrectionLevel" = none)
  ∧ (∀ s, o.format = some s → s ≠ "" →
      lookupParam (HoulaClient.qrcodeQuery o) "format" = some s)
  ∧ (∀ s, o.format = some s → s = "" →
      lookupParam (HoulaClient.qrcodeQuery o) "format" = none)
  ∧ (HoulaClient.getQRCode cfg id {}).url = cfg.apiUrl ++ ("/api/link/" ++ id ++ "/qrcode") := by
  obtain ⟨hw, hm, hdc, hlc, hec, hf⟩ := qrcodeQuery_lookup o
  refine ⟨?_, ?_, ?_, ?_, ?_, ?_, ?_, ?_, ?_, ?_, ?_, ?_⟩
  · intro h; rw [h] at hw; simpa using hw
  · intro mv h; rw [h] at hm; simpa using hm
  · intro w h hne; rw [h] at hw; simpa [hne] using hw
  · intro s h hne; rw [h] at hdc; simpa [hne] using hdc
  · intro s h he; rw [h, he] at hdc; simpa using hdc
  · intro s h hne; rw [h] at hlc; simpa [hne] using hlc
  · intro s h he; rw [h, he] at hlc; simpa using hlc
  · intro s h hne; rw [h] at hec; simpa [hne] using hec
  · intro s h he; rw [h, he] at hec; simpa using hec
  · intro s h hne; rw [h] at hf; simpa [hne] using hf
  · intro s h he; rw [h, he] at hf; simpa using hf
  · have h := getQRCode_url_if cfg id {}
    have hq : HoulaClient.qrcodeQuery {} = [] := rfl
    have hps : paramsToString ([] : List (String × String)) = "" := rfl
    rw [hq] at h
    simpa [hps] using h

/-- Witness for C10 (amended): width 0 omitted, margin 0 kept as `0`,
    a non-empty dark color kept, and an option-free URL with no query. -/
theorem C10_amended_qrcode_truthiness_witness :
    lookupParam (HoulaClient.qrcodeQuery
        { width := some 0, margin := some 0, darkColor := some "#000000" }) "width" = none
  ∧ lookupParam (HoulaClient.qrcodeQuery
        { width := some 0, margin := some 0, darkColor := some "#000000" }) "margin" = some "0"
  ∧ lookupParam (HoulaClient.qrcodeQuery
        { width := some 0, margin := some 0, darkColor := some "#000000" }) "darkColor"
      = some "#000000"
  ∧ (HoulaClient.getQRCode testCfg "abc" {}).url
      = testCfg.apiUrl ++ ("/api/link/" ++ "abc" ++ "/qrcode") := by
  obtain ⟨h1, h2, -, h4, -, -, -, -, -, -, -, h12⟩ := C10_amended_qrcode_truthiness testCfg "abc"
    { width := some 0, margin := some 0, darkColor := some "#000000" }
  exact ⟨h1 rfl, by simpa using h2 0 rfl, h4 "#000000" rfl (by decide), h12⟩

end HoulaSDK
